import Mathlib

/-!
Verification of the deep-research-agent repository.

Two source functions are embedded:
- the streaming presenter `run(query)` in `src/main.py`, whose whole body
  is `async for chunk in ResearchManager().run(query): yield chunk`;
- the email tool `send_email(subject, html_body)` in
  `src/my_agents/email_agent.py`, which reads three values from
  `os.environ`, assigns the module global `resend.api_key`, builds a
  params dict and performs one call to `resend.Emails.send`, then
  returns the dict with key "status" mapped to "success".

The opaque research pipeline is modelled as a function from the query to
a stream value; process-wide mutable state is threaded explicitly.
-/

/-- The stream produced by one call of the opaque research pipeline:
the text chunks it yields in order, then either normal completion
(`failure = none`) or a raised exception carrying a message
(`failure = some msg`). -/
structure ChunkStream where
  chunks : List String
  failure : Option String
deriving Repr, DecidableEq

/-- The fields of the outbound request dict built by `send_email`,
mirroring `resend.Emails.SendParams`: "from", "to", "subject", "html". -/
structure SendParams where
  fromAddr : String
  toAddr : String
  subject : String
  html : String
deriving Repr, DecidableEq

/-- One outbound network call to `resend.Emails.send`, recording the
value held by the module global `resend.api_key` at the moment of the
call together with the request params. -/
structure SendCall where
  apiKey : Option String
  params : SendParams
deriving Repr, DecidableEq

/-- The process-wide mutable state touched by `send_email`:
`os.environ` (only read by this code), the module global
`resend.api_key`, and the log of outbound transport calls performed. -/
structure World where
  environ : String → Option String
  resendApiKey : Option String
  sendLog : List SendCall

/-- The Python exceptions `send_email` can raise: a `KeyError` from a
missing `os.environ[...]` lookup, or the exception raised by the
transport call `resend.Emails.send`. -/
inductive PyError where
  | keyError (key : String)
  | transportError (msg : String)
deriving Repr, DecidableEq

/-- Shallow embedding of `send_email(subject, html_body)` from
`src/my_agents/email_agent.py`.  The argument `transport` models the
outcome of the external call `resend.Emails.send` on given params.
The result is the Python outcome (a raised exception on the error side,
the returned dict on the ok side) paired with the new world.  As in the
source, each `os.environ` lookup raises `KeyError` when the key is
absent, the assignment to `resend.api_key` happens before the later
lookups and before the send, and the transport is called exactly once
after all three lookups succeed. -/
def send_email (transport : SendParams → Except String Unit)
    (subject : String) (html_body : String) (w : World) :
    Except PyError (List (String × String)) × World :=
  match w.environ "RESEND_API_KEY" with
  | none => (Except.error (PyError.keyError "RESEND_API_KEY"), w)
  | some key =>
    match w.environ "RESEND_FROM_EMAIL" with
    | none => (Except.error (PyError.keyError "RESEND_FROM_EMAIL"),
               { w with resendApiKey := some key })
    | some f =>
      match w.environ "RESEND_TO_EMAIL" with
      | none => (Except.error (PyError.keyError "RESEND_TO_EMAIL"),
                 { w with resendApiKey := some key })
      | some t =>
        let params : SendParams :=
          { fromAddr := f, toAddr := t, subject := subject, html := html_body }
        match transport params with
        | Except.error msg =>
          (Except.error (PyError.transportError msg),
           { w with resendApiKey := some key,
                    sendLog := w.sendLog ++ [{ apiKey := some key, params := params }] })
        | Except.ok _ =>
          (Except.ok [("status", "success")],
           { w with resendApiKey := some key,
                    sendLog := w.sendLog ++ [{ apiKey := some key, params := params }] })

/-- The body of the `async for` loop in `run`: each chunk of the
upstream stream is yielded unchanged, in order. -/
def forwardChunks : List String → List String
  | [] => []
  | c :: rest => c :: forwardChunks rest

/-- The observable trace of one call of `run`: the list of queries with
which a freshly constructed `ResearchManager` pipeline was invoked
during the call, and the stream the call itself yields (with any
propagated exception). -/
structure RunTrace where
  invocations : List String
  output : ChunkStream
deriving Repr, DecidableEq

/-- Shallow embedding of `run(query)` from `src/main.py`:
`async for chunk in ResearchManager().run(query): yield chunk`.
A fresh pipeline instance is constructed and invoked once with the
query unmodified; every chunk it yields is forwarded; if it raises
after some chunks, the exception propagates out of `run` unchanged.
The world is passed through untouched: `run` performs no other
side effect. -/
def run (pipeline : String → ChunkStream) (query : String) (w : World) :
    RunTrace × World :=
  let s := pipeline query
  ({ invocations := [query],
     output := { chunks := forwardChunks s.chunks, failure := s.failure } }, w)

/-- Forwarding a list of chunks one by one reproduces the list. -/
theorem forwardChunks_id (xs : List String) : forwardChunks xs = xs := by
  induction xs with
  | nil => rfl
  | cons c rest ih => simp [forwardChunks, ih]

/-- A pipeline that yields one chunk and then raises. -/
def failingPipeline : String → ChunkStream :=
  fun _ => { chunks := ["partial"], failure := some "boom" }

/-- A world with an empty environment. -/
def w0 : World :=
  { environ := fun _ => none, resendApiKey := none, sendLog := [] }

/-- An environment holding all three configuration values. -/
def fullEnviron : String → Option String := fun k =>
  if k = "RESEND_API_KEY" then some "sk_test"
  else if k = "RESEND_FROM_EMAIL" then some "research@src.io"
  else if k = "RESEND_TO_EMAIL" then some "reader@dst.io"
  else none

/-- A world with the full environment. -/
def wFull : World := { environ := fullEnviron, resendApiKey := none, sendLog := [] }

/-- A transport that always fails. -/
def failTransport : SendParams → Except String Unit := fun _ => Except.error "bad gateway"

/-- A transport that always succeeds. -/
def okTransport : SendParams → Except String Unit := fun _ => Except.ok ()

/-- C6: the sequence of chunks yielded by `run(query)` is exactly the
sequence yielded by the underlying pipeline, element for element, in
order and with each chunk unchanged; a termination exception is
propagated unchanged; the pipeline is invoked exactly once with the
query; and `run` changes no process-wide state of its own. -/
theorem run_delegates_exactly (pipeline : String → ChunkStream)
    (query : String) (w : World) :
    (run pipeline query w).1.output = pipeline query ∧
    (run pipeline query w).1.invocations = [query] ∧
    (run pipeline query w).2 = w := by
  refine ⟨?_, rfl, rfl⟩
  simp [run, forwardChunks_id]

/-- C1 counterexample: on a pipeline that yields one chunk and then
raises, `run` propagates the raised exception out of the generator
unhandled; the only chunk it yielded is the pre-failure chunk, not a
text describing the failure. -/
theorem run_failure_counterexample :
    (run failingPipeline "q" w0).1.output.failure = some "boom" ∧
    (run failingPipeline "q" w0).1.output.chunks = ["partial"] := by
  exact ⟨rfl, rfl⟩

/-- C1 (amended): if the pipeline raises partway through the stream,
`run(query)` still terminates with the finite sequence of chunks the
pipeline yielded before failing, but it propagates the pipeline
exception unchanged instead of yielding a terminal chunk describing
the failure. -/
theorem run_propagates_pipeline_failure (pipeline : String → ChunkStream)
    (query : String) (w : World) (e : String)
    (h : (pipeline query).failure = some e) :
    (run pipeline query w).1.output.chunks = (pipeline query).chunks ∧
    (run pipeline query w).1.output.failure = some e := by
  refine ⟨?_, ?_⟩
  · simp [run, forwardChunks_id]
  · simp [run, h]

/-- C1 amended witness: instantiated at the failing pipeline. -/
theorem run_propagates_pipeline_failure_witness :
    (run failingPipeline "query" w0).1.output.chunks = (failingPipeline "query").chunks ∧
    (run failingPipeline "query" w0).1.output.failure = some "boom" :=
  run_propagates_pipeline_failure failingPipeline "query" w0 "boom" rfl

/-- C7: for every empty or whitespace-only query, `run` follows the
pass-through policy, uniformly: the pipeline is invoked exactly once
with the query unmodified, never rejected with a no-op; the two
policies are not mixed. -/
theorem run_passes_blank_query_through (pipeline : String → ChunkStream)
    (query : String) (w : World) (_h : query.data.all Char.isWhitespace = true) :
    (run pipeline query w).1.invocations = [query] ∧
    (run pipeline query w).1.output = pipeline query := by
  refine ⟨rfl, ?_⟩
  simp [run, forwardChunks_id]

/-- C7 witness: instantiated at the empty query. -/
theorem run_passes_blank_query_through_witness :
    "".data.all Char.isWhitespace = true ∧
    ((run failingPipeline "" w0).1.invocations = [""] ∧
     (run failingPipeline "" w0).1.output = failingPipeline "") :=
  ⟨rfl, run_passes_blank_query_through failingPipeline "" w0 rfl⟩

/-- C2 counterexample: with all credentials present and a failing
transport, `send_email` raises the transport exception to its caller
(the Python call produces no returned value) instead of returning a
failure status object carrying the error detail. -/
theorem send_email_no_status_on_failure_counterexample :
    (send_email failTransport "subj" "body" wFull).1
      = Except.error (PyError.transportError "bad gateway") := by
  rfl

/-- C2 (amended): for every invocation in which a credential lookup or
the transport call fails, `send_email` propagates an exception to the
caller: a `KeyError` naming the missing environment variable, or the
transport exception with its error detail; the failure is never
silently swallowed, and no failure status object is returned. -/
theorem send_email_failure_raises
    (transport : SendParams → Except String Unit)
    (subject html_body : String) (w : World)
    (h : w.environ "RESEND_API_KEY" = none ∨
         w.environ "RESEND_FROM_EMAIL" = none ∨
         w.environ "RESEND_TO_EMAIL" = none ∨
         ∃ f t msg, w.environ "RESEND_FROM_EMAIL" = some f ∧
           w.environ "RESEND_TO_EMAIL" = some t ∧
           transport { fromAddr := f, toAddr := t,
                       subject := subject, html := html_body }
             = Except.error msg) :
    ((∃ k, (send_email transport subject html_body w).1
             = Except.error (PyError.keyError k) ∧ w.environ k = none) ∨
     (∃ msg, (send_email transport subject html_body w).1
               = Except.error (PyError.transportError msg) ∧
       ∃ f t, w.environ "RESEND_FROM_EMAIL" = some f ∧
         w.environ "RESEND_TO_EMAIL" = some t ∧
         transport { fromAddr := f, toAddr := t,
                     subject := subject, html := html_body }
           = Except.error msg)) ∧
    ∀ r, (send_email transport subject html_body w).1 ≠ Except.ok r := by
  rcases hk : w.environ "RESEND_API_KEY" with _ | key
  · exact ⟨Or.inl ⟨"RESEND_API_KEY", by simp [send_email, hk], hk⟩,
           by simp [send_email, hk]⟩
  · rcases hf : w.environ "RESEND_FROM_EMAIL" with _ | f
    · exact ⟨Or.inl ⟨"RESEND_FROM_EMAIL", by simp [send_email, hk, hf], hf⟩,
             by simp [send_email, hk, hf]⟩
    · rcases ht : w.environ "RESEND_TO_EMAIL" with _ | t
      · exact ⟨Or.inl ⟨"RESEND_TO_EMAIL", by simp [send_email, hk, hf, ht], ht⟩,
               by simp [send_email, hk, hf, ht]⟩
      · rcases htr : transport { fromAddr := f, toAddr := t,
                                 subject := subject, html := html_body } with msg | u
        · exact ⟨Or.inr ⟨msg, by simp [send_email, hk, hf, ht, htr],
                         f, t, rfl, rfl, htr⟩,
                 by simp [send_email, hk, hf, ht, htr]⟩
        · rcases h with h | h | h | ⟨f2, t2, msg, hf2, ht2, htr2⟩
          · exact absurd hk (by simp [h])
          · exact absurd hf (by simp [h])
          · exact absurd ht (by simp [h])
          · rw [hf, Option.some.injEq] at hf2
            rw [ht, Option.some.injEq] at ht2
            subst hf2
            subst ht2
            exact absurd htr (by simp [htr2])

/-- C2 amended witness: instantiated at the full environment and the
failing transport; the hypothesis holds through its transport-failure
disjunct. -/
theorem send_email_failure_raises_witness :
    (wFull.environ "RESEND_API_KEY" = none ∨
     wFull.environ "RESEND_FROM_EMAIL" = none ∨
     wFull.environ "RESEND_TO_EMAIL" = none ∨
     ∃ f t msg, wFull.environ "RESEND_FROM_EMAIL" = some f ∧
       wFull.environ "RESEND_TO_EMAIL" = some t ∧
       failTransport { fromAddr := f, toAddr := t,
                       subject := "subj", html := "body" }
         = Except.error msg) ∧
    (((∃ k, (send_email failTransport "subj" "body" wFull).1
              = Except.error (PyError.keyError k) ∧ wFull.environ k = none) ∨
      (∃ msg, (send_email failTransport "subj" "body" wFull).1
                = Except.error (PyError.transportError msg) ∧
        ∃ f t, wFull.environ "RESEND_FROM_EMAIL" = some f ∧
          wFull.environ "RESEND_TO_EMAIL" = some t ∧
          failTransport { fromAddr := f, toAddr := t,
                          subject := "subj", html := "body" }
            = Except.error msg)) ∧
     ∀ r, (send_email failTransport "subj" "body" wFull).1 ≠ Except.ok r) :=
  ⟨Or.inr (Or.inr (Or.inr
     ⟨"research@src.io", "reader@dst.io", "bad gateway", rfl, rfl, rfl⟩)),
   send_email_failure_raises failTransport "subj" "body" wFull
     (Or.inr (Or.inr (Or.inr
       ⟨"research@src.io", "reader@dst.io", "bad gateway", rfl, rfl, rfl⟩)))⟩

/-- C3: when the configuration is present, one invocation of
`send_email` performs exactly one outbound transport call, whatever
the transport outcome: never zero on the success path, never more than
one, and no retry after a transport failure. -/
theorem send_email_exactly_one_send
    (transport : SendParams → Except String Unit)
    (subject html_body : String) (w : World) (key f t : String)
    (hk : w.environ "RESEND_API_KEY" = some key)
    (hf : w.environ "RESEND_FROM_EMAIL" = some f)
    (ht : w.environ "RESEND_TO_EMAIL" = some t) :
    (send_email transport subject html_body w).2.sendLog
      = w.sendLog ++ [{ apiKey := some key,
                        params := { fromAddr := f, toAddr := t,
                                    subject := subject, html := html_body } }] := by
  rcases htr : transport { fromAddr := f, toAddr := t,
                           subject := subject, html := html_body } with msg | u <;>
    simp [send_email, hk, hf, ht, htr]

/-- C3 witness: instantiated at the full environment; the failing
transport still produces exactly one logged call (no retry). -/
theorem send_email_exactly_one_send_witness :
    wFull.environ "RESEND_API_KEY" = some "sk_test" ∧
    wFull.environ "RESEND_FROM_EMAIL" = some "research@src.io" ∧
    wFull.environ "RESEND_TO_EMAIL" = some "reader@dst.io" ∧
    (send_email failTransport "subj" "body" wFull).2.sendLog
      = wFull.sendLog ++ [{ apiKey := some "sk_test",
                            params := { fromAddr := "research@src.io",
                                        toAddr := "reader@dst.io",
                                        subject := "subj", html := "body" } }] :=
  ⟨rfl, rfl, rfl,
   send_email_exactly_one_send failTransport "subj" "body" wFull
     "sk_test" "research@src.io" "reader@dst.io" rfl rfl rfl⟩

/-- C4: if any of the three required environment values is missing at
call time, `send_email` raises a `KeyError` (it fails loudly) and
performs no transport call; it never returns success without sending. -/
theorem send_email_missing_config_fails_loudly
    (transport : SendParams → Except String Unit)
    (subject html_body : String) (w : World)
    (h : w.environ "RESEND_API_KEY" = none ∨
         w.environ "RESEND_FROM_EMAIL" = none ∨
         w.environ "RESEND_TO_EMAIL" = none) :
    (∃ k, (send_email transport subject html_body w).1
            = Except.error (PyError.keyError k)) ∧
    (send_email transport subject html_body w).2.sendLog = w.sendLog := by
  rcases hk : w.environ "RESEND_API_KEY" with _ | key
  · exact ⟨⟨"RESEND_API_KEY", by simp [send_email, hk]⟩, by simp [send_email, hk]⟩
  · rcases hf : w.environ "RESEND_FROM_EMAIL" with _ | f
    · exact ⟨⟨"RESEND_FROM_EMAIL", by simp [send_email, hk, hf]⟩,
             by simp [send_email, hk, hf]⟩
    · rcases ht : w.environ "RESEND_TO_EMAIL" with _ | t
      · exact ⟨⟨"RESEND_TO_EMAIL", by simp [send_email, hk, hf, ht]⟩,
               by simp [send_email, hk, hf, ht]⟩
      · simp [hk, hf, ht] at h

/-- C4 witness: instantiated at the empty environment. -/
theorem send_email_missing_config_fails_loudly_witness :
    (w0.environ "RESEND_API_KEY" = none ∨
     w0.environ "RESEND_FROM_EMAIL" = none ∨
     w0.environ "RESEND_TO_EMAIL" = none) ∧
    ((∃ k, (send_email okTransport "subj" "body" w0).1
             = Except.error (PyError.keyError k)) ∧
     (send_email okTransport "subj" "body" w0).2.sendLog = w0.sendLog) :=
  ⟨Or.inl rfl,
   send_email_missing_config_fails_loudly okTransport "subj" "body" w0 (Or.inl rfl)⟩

/-- C5: for every subject and html body, when the credential lookups
succeed and the transport call succeeds, `send_email` returns exactly
the dict mapping "status" to "success". -/
theorem send_email_success_returns_status
    (transport : SendParams → Except String Unit)
    (subject html_body : String) (w : World) (key f t : String)
    (hk : w.environ "RESEND_API_KEY" = some key)
    (hf : w.environ "RESEND_FROM_EMAIL" = some f)
    (ht : w.environ "RESEND_TO_EMAIL" = some t)
    (hsend : transport { fromAddr := f, toAddr := t,
                         subject := subject, html := html_body }
               = Except.ok ()) :
    (send_email transport subject html_body w).1
      = Except.ok [("status", "success")] := by
  simp [send_email, hk, hf, ht, hsend]

/-- C5 witness: instantiated at the full environment and the successful
transport. -/
theorem send_email_success_returns_status_witness :
    wFull.environ "RESEND_API_KEY" = some "sk_test" ∧
    wFull.environ "RESEND_FROM_EMAIL" = some "research@src.io" ∧
    wFull.environ "RESEND_TO_EMAIL" = some "reader@dst.io" ∧
    okTransport { fromAddr := "research@src.io", toAddr := "reader@dst.io",
                  subject := "subj", html := "body" } = Except.ok () ∧
    (send_email okTransport "subj" "body" wFull).1
      = Except.ok [("status", "success")] :=
  ⟨rfl, rfl, rfl, rfl,
   send_email_success_returns_status okTransport "subj" "body" wFull
     "sk_test" "research@src.io" "reader@dst.io" rfl rfl rfl rfl⟩

/-- C8: the outbound request logged by `send_email` takes its from and
to addresses and its api key from the environment at call time, and its
subject and html fields are the subject and html_body arguments
unchanged. -/
theorem send_email_request_fields
    (transport : SendParams → Except String Unit)
    (subject html_body : String) (w : World) (key f t : String)
    (hk : w.environ "RESEND_API_KEY" = some key)
    (hf : w.environ "RESEND_FROM_EMAIL" = some f)
    (ht : w.environ "RESEND_TO_EMAIL" = some t) :
    ∃ c, (send_email transport subject html_body w).2.sendLog = w.sendLog ++ [c] ∧
      c.apiKey = some key ∧
      c.params.fromAddr = f ∧ c.params.toAddr = t ∧
      c.params.subject = subject ∧ c.params.html = html_body := by
  refine ⟨{ apiKey := some key,
            params := { fromAddr := f, toAddr := t,
                        subject := subject, html := html_body } },
          ?_, rfl, rfl, rfl, rfl, rfl⟩
  rcases htr : transport { fromAddr := f, toAddr := t,
                           subject := subject, html := html_body } with msg | u <;>
    simp [send_email, hk, hf, ht, htr]

/-- C8 witness: instantiated at the full environment. -/
theorem send_email_request_fields_witness :
    wFull.environ "RESEND_API_KEY" = some "sk_test" ∧
    wFull.environ "RESEND_FROM_EMAIL" = some "research@src.io" ∧
    wFull.environ "RESEND_TO_EMAIL" = some "reader@dst.io" ∧
    (∃ c, (send_email okTransport "s8" "b8" wFull).2.sendLog = wFull.sendLog ++ [c] ∧
      c.apiKey = some "sk_test" ∧
      c.params.fromAddr = "research@src.io" ∧ c.params.toAddr = "reader@dst.io" ∧
      c.params.subject = "s8" ∧ c.params.html = "b8") :=
  ⟨rfl, rfl, rfl,
   send_email_request_fields okTransport "s8" "b8" wFull
     "sk_test" "research@src.io" "reader@dst.io" rfl rfl rfl⟩

/-- C10: whenever the RESEND_API_KEY environment value is present,
`send_email` overwrites the module global `resend.api_key` with that
value, the overwrite is visible to every transport call the invocation
performs (it happens before the send), the mutation persists in the
state after the call returns, and `os.environ` is left unchanged. -/
theorem send_email_sets_api_key_global
    (transport : SendParams → Except String Unit)
    (subject html_body : String) (w : World) (key : String)
    (hk : w.environ "RESEND_API_KEY" = some key) :
    (send_email transport subject html_body w).2.resendApiKey = some key ∧
    (send_email transport subject html_body w).2.environ = w.environ ∧
    ∀ c, c ∈ (send_email transport subject html_body w).2.sendLog →
      c ∈ w.sendLog ∨ c.apiKey = some key := by
  rcases hf : w.environ "RESEND_FROM_EMAIL" with _ | f
  · refine ⟨by simp [send_email, hk, hf], by simp [send_email, hk, hf], ?_⟩
    intro c hc
    simp [send_email, hk, hf] at hc
    exact Or.inl hc
  · rcases ht : w.environ "RESEND_TO_EMAIL" with _ | t
    · refine ⟨by simp [send_email, hk, hf, ht], by simp [send_email, hk, hf, ht], ?_⟩
      intro c hc
      simp [send_email, hk, hf, ht] at hc
      exact Or.inl hc
    · rcases htr : transport { fromAddr := f, toAddr := t,
                               subject := subject, html := html_body } with msg | u <;>
      · refine ⟨by simp [send_email, hk, hf, ht, htr],
                by simp [send_email, hk, hf, ht, htr], ?_⟩
        intro c hc
        simp [send_email, hk, hf, ht, htr] at hc
        rcases hc with hc | hc
        · exact Or.inl hc
        · exact Or.inr (by simp [hc])

/-- C10 witness: instantiated at the full environment. -/
theorem send_email_sets_api_key_global_witness :
    wFull.environ "RESEND_API_KEY" = some "sk_test" ∧
    ((send_email okTransport "sX" "bX" wFull).2.resendApiKey = some "sk_test" ∧
     (send_email okTransport "sX" "bX" wFull).2.environ = wFull.environ ∧
     ∀ c, c ∈ (send_email okTransport "sX" "bX" wFull).2.sendLog →
       c ∈ wFull.sendLog ∨ c.apiKey = some "sk_test") :=
  ⟨rfl, send_email_sets_api_key_global okTransport "sX" "bX" wFull "sk_test" rfl⟩

/-- One invocation of `send_email` leaves `os.environ` unchanged. -/
theorem send_email_environ_unchanged
    (transport : SendParams → Except String Unit)
    (subject html_body : String) (w : World) :
    (send_email transport subject html_body w).2.environ = w.environ := by
  rcases hk : w.environ "RESEND_API_KEY" with _ | key
  · simp [send_email, hk]
  · rcases hf : w.environ "RESEND_FROM_EMAIL" with _ | f
    · simp [send_email, hk, hf]
    · rcases ht : w.environ "RESEND_TO_EMAIL" with _ | t
      · simp [send_email, hk, hf, ht]
      · rcases htr : transport { fromAddr := f, toAddr := t,
                                 subject := subject, html := html_body } with m | u <;>
          simp [send_email, hk, hf, ht, htr]

/-- The outcome of `send_email` depends on the world only through
`os.environ`: two worlds with the same environment give the same
returned value (or raised exception). -/
theorem send_email_fst_congr
    (transport : SendParams → Except String Unit)
    (subject html_body : String) (w v : World)
    (h : w.environ = v.environ) :
    (send_email transport subject html_body w).1
      = (send_email transport subject html_body v).1 := by
  rcases hk : v.environ "RESEND_API_KEY" with _ | key
  · simp [send_email, h, hk]
  · rcases hf : v.environ "RESEND_FROM_EMAIL" with _ | f
    · simp [send_email, h, hk, hf]
    · rcases ht : v.environ "RESEND_TO_EMAIL" with _ | t
      · simp [send_email, h, hk, hf, ht]
      · rcases htr : transport { fromAddr := f, toAddr := t,
                                 subject := subject, html := html_body } with m | u <;>
          simp [send_email, h, hk, hf, ht, htr]

/-- C9: neither component holds state between invocations beyond the
process-wide configuration: a second call of `run` from the state the
first call left behind produces the same trace, a second call of
`send_email` with the same arguments from the state the first call left
behind produces the same outcome, and each call of `run` constructs a
fresh pipeline, invoked exactly once with the query. -/
theorem components_are_stateless
    (pipeline : String → ChunkStream) (query : String)
    (transport : SendParams → Except String Unit)
    (subject html_body : String) (w : World) :
    (run pipeline query ((run pipeline query w).2)).1
      = (run pipeline query w).1 ∧
    (send_email transport subject html_body
        ((send_email transport subject html_body w).2)).1
      = (send_email transport subject html_body w).1 ∧
    (run pipeline query w).1.invocations = [query] := by
  refine ⟨rfl, ?_, rfl⟩
  exact send_email_fst_congr transport subject html_body _ w
    (send_email_environ_unchanged transport subject html_body w)
